import Mathlib

/-!
Shallow embedding of `src/index.js` (Address-Validation service).

The service exposes one route, `GET /usps/validate?record_id=...`, which
fetches a SugarCRM contact, validates its address against the USPS
address-standardization API and writes the corrected address back.
External effects (HTTP calls, the clock) are modelled explicitly: each
outbound dependency is an `Except String _` oracle inside an `Env`
record, the current epoch time is passed as a `Rat` argument, and every
outbound request actually issued is recorded as a `Call` event in an
output list, so that claims about "no network call is made" become
statements about that list.
-/

namespace AV

/-- JavaScript truthiness of an optional string (`null`/`undefined` and the
empty string are falsy, every other string is truthy). -/
def optStrTruthy : Option String → Bool
  | none => false
  | some s => !s.isEmpty

/-- The module-level token cache of `index.js`:
`let cachedSugarToken = null; let sugarTokenExpiresAt = 0;`. -/
structure TokenCache where
  cachedSugarToken : Option String
  sugarTokenExpiresAt : Rat
deriving DecidableEq

/-- The initial cache state at process start. -/
def TokenCache.init : TokenCache := ⟨none, 0⟩

/-- Body of a successful response from the SugarCRM OAuth token endpoint. -/
structure TokenResponse where
  access_token : String
  expires_in : Rat
deriving DecidableEq

/-- A SugarCRM contact as read from the CRM; each relevant field may be
absent in the upstream JSON payload. -/
structure Contact where
  primary_address_street : Option String
  mailing_address_2_c : Option String
  primary_address_city : Option String
  primary_address_state : Option String
  primary_address_postalcode : Option String
deriving DecidableEq

/-- The five query parameters sent to the USPS standardization endpoint
(the `params` object built in the route handler). -/
structure StdParams where
  streetAddress : String
  secondaryAddress : String
  city : String
  state : String
  ZIPCode : String
deriving DecidableEq

/-- The `address` object of a USPS standardization response. -/
structure USPSAddress where
  streetAddressAbbreviation : String
  city : String
  state : String
  ZIPCode : String
deriving DecidableEq

/-- Body of a USPS standardization response; the `address` object may be
absent from the returned JSON. -/
structure USPSResponse where
  address : Option USPSAddress
deriving DecidableEq

/-- One outbound HTTP request issued by the service. -/
inductive Call where
  | sugarToken
  | contactGet (id : String)
  | uspsToken
  | standardizeCall (p : StdParams)
  | contactUpdate (id : String) (data : List (String × String))
deriving DecidableEq

/-- Outcomes of the external collaborators for one request: the SugarCRM
OAuth endpoint, the CRM contact read, the USPS OAuth endpoint, the USPS
standardization endpoint and the CRM contact update.  An `Except.error e`
models the corresponding `axios` call throwing with `err.message = e`. -/
structure Env where
  sugarTokenFetch : Except String TokenResponse
  getContact : String → Except String Contact
  uspsTokenFetch : Except String String
  standardize : StdParams → Except String USPSResponse
  updateContact : String → List (String × String) → Except String Unit

/-- An HTTP response emitted by the route handler. -/
structure HttpResponse where
  status : Nat
  body : String
deriving DecidableEq

/-- `getSugarAuthToken` of `index.js`.  `now` is `Date.now() / 1000` at the
moment of the call; the returned triple is the result (or the propagated
error), the token cache after the call, and the outbound requests made. -/
def getSugarAuthToken (now : Rat) (fetch : Except String TokenResponse)
    (st : TokenCache) : Except String String × TokenCache × List Call :=
  if optStrTruthy st.cachedSugarToken ∧ now < st.sugarTokenExpiresAt - 60 then
    (Except.ok (st.cachedSugarToken.getD ""), st, [])
  else
    match fetch with
    | Except.error e => (Except.error e, st, [Call.sugarToken])
    | Except.ok r =>
        (Except.ok r.access_token,
         { cachedSugarToken := some r.access_token
           sugarTokenExpiresAt := now + r.expires_in },
         [Call.sugarToken])

/-- `getSugarContact` of `index.js`: acquire a CRM token, then `GET` the
contact. -/
def getSugarContact (env : Env) (now : Rat) (st : TokenCache) (id : String) :
    Except String Contact × TokenCache × List Call :=
  match getSugarAuthToken now env.sugarTokenFetch st with
  | (Except.error e, st1, cs) => (Except.error e, st1, cs)
  | (Except.ok _tok, st1, cs) =>
      match env.getContact id with
      | Except.error e => (Except.error e, st1, cs ++ [Call.contactGet id])
      | Except.ok c => (Except.ok c, st1, cs ++ [Call.contactGet id])

/-- `updateSugarContact` of `index.js`: acquire a CRM token, then `PUT`
the partial-field payload. -/
def updateSugarContact (env : Env) (now : Rat) (st : TokenCache) (id : String)
    (data : List (String × String)) :
    Except String Unit × TokenCache × List Call :=
  match getSugarAuthToken now env.sugarTokenFetch st with
  | (Except.error e, st1, cs) => (Except.error e, st1, cs)
  | (Except.ok _tok, st1, cs) =>
      match env.updateContact id data with
      | Except.error e => (Except.error e, st1, cs ++ [Call.contactUpdate id data])
      | Except.ok _ => (Except.ok (), st1, cs ++ [Call.contactUpdate id data])

/-- Extraction of the five USPS parameters from the contact
(`contact.primary_address_street || ''` and so on); an absent field
becomes the empty string. -/
def extractParams (c : Contact) : StdParams :=
  { streetAddress := c.primary_address_street.getD ""
    secondaryAddress := c.mailing_address_2_c.getD ""
    city := c.primary_address_city.getD ""
    state := c.primary_address_state.getD ""
    ZIPCode := c.primary_address_postalcode.getD "" }

/-- The update payload built from the corrected USPS address: the four
primary address fields plus the fixed validation-status literal. -/
def updatePayload (a : USPSAddress) : List (String × String) :=
  [("primary_address_street", a.streetAddressAbbreviation),
   ("primary_address_city", a.city),
   ("primary_address_state", a.state),
   ("primary_address_postalcode", a.ZIPCode),
   ("address_validation_status_c", "Validated")]

/-- The 500 HTML error body `<h3>Address validation failed</h3><pre>...</pre>`. -/
def failBody (msg : String) : String :=
  "<h3>Address validation failed</h3><pre>" ++ msg ++ "</pre>"

/-- The 200 HTML success body. -/
def successBody (id : String) : String :=
  "<h3>Address validated and updated for Contact ID: " ++ id ++ "</h3>"

/-- The `err.message` of the TypeError raised by
`corrected.streetAddressAbbreviation` when the USPS response carries no
`address` object. -/
def undefinedAccessMsg : String := "Cannot read properties of undefined"

/-- The `/usps/validate` route handler.  `record_id` is the query
parameter (`none` when absent); `now1` and `now2` are the epoch times at
the two possible `getSugarAuthToken` invocations (contact read and
contact update).  Returns the HTTP response, the token cache after the
request, and the list of outbound requests issued, in order. -/
def handleValidate (env : Env) (now1 now2 : Rat) (st : TokenCache)
    (record_id : Option String) : HttpResponse × TokenCache × List Call :=
  if optStrTruthy record_id = false then
    (⟨400, "Missing record_id"⟩, st, [])
  else
    let recordId := record_id.getD ""
    match getSugarContact env now1 st recordId with
    | (Except.error e, st1, cs) => (⟨500, failBody e⟩, st1, cs)
    | (Except.ok contact, st1, cs) =>
      let params := extractParams contact
      if params.streetAddress.isEmpty || params.city.isEmpty ||
          params.state.isEmpty || params.ZIPCode.isEmpty then
        (⟨400, "Missing one or more required address fields"⟩, st1, cs)
      else
        match env.uspsTokenFetch with
        | Except.error e => (⟨500, failBody e⟩, st1, cs ++ [Call.uspsToken])
        | Except.ok _uspsTok =>
          match env.standardize params with
          | Except.error e =>
              (⟨500, failBody e⟩, st1,
               cs ++ [Call.uspsToken, Call.standardizeCall params])
          | Except.ok uspsResp =>
            match uspsResp.address with
            | none =>
                (⟨500, failBody undefinedAccessMsg⟩, st1,
                 cs ++ [Call.uspsToken, Call.standardizeCall params])
            | some corrected =>
              match updateSugarContact env now2 st1 recordId
                  (updatePayload corrected) with
              | (Except.error e, st2, cs2) =>
                  (⟨500, failBody e⟩, st2,
                   cs ++ [Call.uspsToken, Call.standardizeCall params] ++ cs2)
              | (Except.ok _, st2, cs2) =>
                  (⟨200, successBody recordId⟩, st2,
                   cs ++ [Call.uspsToken, Call.standardizeCall params] ++ cs2)

/-- A sequence of `getSugarAuthToken` calls at the given times, threading
the cache state from call to call; returns the result of each call
together with its outbound requests, and the final cache. -/
def runTokenCalls (fetch : Except String TokenResponse) (st : TokenCache) :
    List Rat → List (Except String String × List Call) × TokenCache
  | [] => ([], st)
  | t :: ts =>
      let r := getSugarAuthToken t fetch st
      let rest := runTokenCalls fetch r.2.1 ts
      ((r.1, r.2.2) :: rest.1, rest.2)

/-- The required-field check of the route handler passes: none of street,
city, state, ZIP is empty (the secondary address is not checked). -/
def requiredNonEmpty (p : StdParams) : Prop :=
  (p.streetAddress.isEmpty || p.city.isEmpty || p.state.isEmpty ||
    p.ZIPCode.isEmpty) = false

instance (p : StdParams) : Decidable (requiredNonEmpty p) := by
  unfold requiredNonEmpty
  infer_instance

/-! ### Concrete fixtures used to exercise the definitions -/

/-- A contact with all five address fields present. -/
def sampleContact : Contact :=
  ⟨some "6406 Ivy Lane", some "Apt 2", some "Greenbelt", some "MD",
   some "20770"⟩

/-- A contact whose state field is absent and whose secondary address is
absent. -/
def sampleNoState : Contact :=
  ⟨some "6406 Ivy Lane", none, some "Greenbelt", none, some "20770"⟩

/-- A standardized address as returned by the USPS API. -/
def sampleAddr : USPSAddress := ⟨"6406 IVY LN", "GREENBELT", "MD", "20770"⟩

/-- An environment in which every external call succeeds. -/
def okEnv : Env :=
  ⟨Except.ok ⟨"tok", 3600⟩, fun _ => Except.ok sampleContact,
   Except.ok "utok", fun _ => Except.ok ⟨some sampleAddr⟩,
   fun _ _ => Except.ok ()⟩

/-- Like `okEnv` but the fetched contact lacks its state field. -/
def noStateEnv : Env :=
  { okEnv with getContact := fun _ => Except.ok sampleNoState }

/-- Like `okEnv` but the CRM contact read fails (HTTP 404). -/
def contact404Env : Env :=
  { okEnv with getContact :=
      fun _ => Except.error "Request failed with status code 404" }

/-- Like `okEnv` but the USPS token endpoint fails. -/
def uspsTokenFailEnv : Env :=
  { okEnv with uspsTokenFetch := Except.error "usps token failure" }

/-- Like `okEnv` but the standardization call fails. -/
def stdFailEnv : Env :=
  { okEnv with standardize := fun _ => Except.error "Address Not Found" }

/-- Like `okEnv` but the standardization response has no `address`
object. -/
def noAddrEnv : Env :=
  { okEnv with standardize := fun _ => Except.ok ⟨none⟩ }

/-- Like `okEnv` but the CRM contact update fails. -/
def updateFailEnv : Env :=
  { okEnv with updateContact :=
      fun _ _ => Except.error "Request failed with status code 500" }

/-- Like `okEnv` but the CRM token endpoint hands out an empty
`access_token`. -/
def emptyTokEnv : Env :=
  { okEnv with sugarTokenFetch := Except.ok ⟨"", 3600⟩ }

/-! ### Helper lemmas about the token operations -/

/-- On a cache hit the token function returns the cached value, leaves the
cache unchanged and issues no request. -/
theorem getSugarAuthToken_hit (now : Rat) (fetch : Except String TokenResponse)
    (st : TokenCache) (t : String) (hc : st.cachedSugarToken = some t)
    (ht : t ≠ "") (hlt : now < st.sugarTokenExpiresAt - 60) :
    getSugarAuthToken now fetch st = (Except.ok t, st, []) := by
  have htr : optStrTruthy st.cachedSugarToken = true := by
    have : t.isEmpty = false := by
      rw [Bool.eq_false_iff]
      intro hcon
      exact ht ((String.isEmpty_iff t).mp hcon)
    simp [hc, optStrTruthy, this]
  unfold getSugarAuthToken
  rw [if_pos ⟨htr, hlt⟩]
  simp [hc]

/-- On a cache miss with a successful fetch, the token function stores the
new token, sets the expiry and returns the new token. -/
theorem getSugarAuthToken_miss_ok (now : Rat) (r : TokenResponse)
    (st : TokenCache)
    (hmiss : ¬ (optStrTruthy st.cachedSugarToken = true ∧
        now < st.sugarTokenExpiresAt - 60)) :
    getSugarAuthToken now (Except.ok r) st =
      (Except.ok r.access_token,
       ⟨some r.access_token, now + r.expires_in⟩, [Call.sugarToken]) := by
  unfold getSugarAuthToken
  rw [if_neg hmiss]

/-- On a cache miss with a failing fetch, the error is propagated and the
cache is left untouched. -/
theorem getSugarAuthToken_miss_error (now : Rat) (e : String)
    (st : TokenCache)
    (hmiss : ¬ (optStrTruthy st.cachedSugarToken = true ∧
        now < st.sugarTokenExpiresAt - 60)) :
    getSugarAuthToken now (Except.error e) st =
      (Except.error e, st, [Call.sugarToken]) := by
  unfold getSugarAuthToken
  rw [if_neg hmiss]

/-- Every request issued by `getSugarAuthToken` is the CRM token request. -/
theorem getSugarAuthToken_calls (now : Rat) (fetch : Except String TokenResponse)
    (st : TokenCache) :
    ∀ x ∈ (getSugarAuthToken now fetch st).2.2, x = Call.sugarToken := by
  unfold getSugarAuthToken
  split
  · simp
  · cases fetch <;> simp

/-- Every request issued by `getSugarContact` is the CRM token request or
the contact read. -/
theorem getSugarContact_calls (env : Env) (now : Rat) (st : TokenCache)
    (id : String) :
    ∀ x ∈ (getSugarContact env now st id).2.2,
      x = Call.sugarToken ∨ x = Call.contactGet id := by
  unfold getSugarContact
  rcases hA : getSugarAuthToken now env.sugarTokenFetch st with ⟨r, st1, cs⟩
  have hcs : ∀ x ∈ cs, x = Call.sugarToken := by
    have := getSugarAuthToken_calls now env.sugarTokenFetch st
    rw [hA] at this
    exact this
  cases r with
  | error e => intro x hx; exact Or.inl (hcs x hx)
  | ok tok =>
      cases hB : env.getContact id with
      | error e =>
          intro x hx
          simp only [hB, List.mem_append, List.mem_singleton] at hx
          rcases hx with hx | hx
          · exact Or.inl (hcs x hx)
          · exact Or.inr hx
      | ok c =>
          intro x hx
          simp only [hB, List.mem_append, List.mem_singleton] at hx
          rcases hx with hx | hx
          · exact Or.inl (hcs x hx)
          · exact Or.inr hx

/-- Every request issued by `updateSugarContact` is the CRM token request
or the contact update. -/
theorem updateSugarContact_calls (env : Env) (now : Rat) (st : TokenCache)
    (id : String) (data : List (String × String)) :
    ∀ x ∈ (updateSugarContact env now st id data).2.2,
      x = Call.sugarToken ∨ x = Call.contactUpdate id data := by
  unfold updateSugarContact
  rcases hA : getSugarAuthToken now env.sugarTokenFetch st with ⟨r, st1, cs⟩
  have hcs : ∀ x ∈ cs, x = Call.sugarToken := by
    have := getSugarAuthToken_calls now env.sugarTokenFetch st
    rw [hA] at this
    exact this
  cases r with
  | error e => intro x hx; exact Or.inl (hcs x hx)
  | ok tok =>
      cases hB : env.updateContact id data with
      | error e =>
          intro x hx
          simp only [hB, List.mem_append, List.mem_singleton] at hx
          rcases hx with hx | hx
          · exact Or.inl (hcs x hx)
          · exact Or.inr hx
      | ok u =>
          intro x hx
          simp only [hB, List.mem_append, List.mem_singleton] at hx
          rcases hx with hx | hx
          · exact Or.inl (hcs x hx)
          · exact Or.inr hx

/-! ### Claims about the CRM token cache -/

/-- Claim C1: if a cached token value exists and `now < expiresAt - 60`,
`getSugarAuthToken` returns the cached value and performs no network
request; otherwise it performs the password-grant token request and, when
it succeeds, stores the returned `access_token`, sets
`expiresAt = now + expires_in` and returns the new token. -/
theorem c1_getSugarAuthToken_cache (now : Rat) (st : TokenCache)
    (fetch : Except String TokenResponse) :
    (∀ t, st.cachedSugarToken = some t → t ≠ "" →
      now < st.sugarTokenExpiresAt - 60 →
      getSugarAuthToken now fetch st = (Except.ok t, st, [])) ∧
    (∀ r, ¬ (optStrTruthy st.cachedSugarToken = true ∧
        now < st.sugarTokenExpiresAt - 60) →
      fetch = Except.ok r →
      getSugarAuthToken now fetch st =
        (Except.ok r.access_token,
         ⟨some r.access_token, now + r.expires_in⟩, [Call.sugarToken])) := by
  constructor
  · intro t hc ht hlt
    exact getSugarAuthToken_hit now fetch st t hc ht hlt
  · intro r hmiss hf
    subst hf
    exact getSugarAuthToken_miss_ok now r st hmiss

/-- Witness for C1 at concrete inputs: a hit at time 100 with expiry 1000,
and a miss from the empty initial cache. -/
theorem c1_getSugarAuthToken_cache_witness :
    getSugarAuthToken 100 (Except.error "boom") ⟨some "tok", 1000⟩ =
      (Except.ok "tok", ⟨some "tok", 1000⟩, []) ∧
    getSugarAuthToken 100 (Except.ok ⟨"new", 3600⟩) ⟨none, 0⟩ =
      (Except.ok "new", ⟨some "new", 100 + 3600⟩, [Call.sugarToken]) :=
  ⟨(c1_getSugarAuthToken_cache 100 ⟨some "tok", 1000⟩ (Except.error "boom")).1
      "tok" rfl (by decide) (by norm_num),
   (c1_getSugarAuthToken_cache 100 ⟨none, 0⟩ (Except.ok ⟨"new", 3600⟩)).2
      ⟨"new", 3600⟩ (by simp [optStrTruthy]) rfl⟩

/-- Claim C7: repeated calls inside the validity window all return the
identical cached value with no network request and leave the cache
unchanged; a call after the window (minus the 60-second margin) has
elapsed issues a new request and updates the cache. -/
theorem c7_token_idempotent (fetch : Except String TokenResponse)
    (st : TokenCache) (t : String) (hc : st.cachedSugarToken = some t)
    (ht : t ≠ "") (times : List Rat)
    (hw : ∀ x ∈ times, x < st.sugarTokenExpiresAt - 60) :
    runTokenCalls fetch st times =
      (times.map (fun _ => (Except.ok t, ([] : List Call))), st) ∧
    (∀ x r, st.sugarTokenExpiresAt - 60 ≤ x → fetch = Except.ok r →
      getSugarAuthToken x fetch st =
        (Except.ok r.access_token,
         ⟨some r.access_token, x + r.expires_in⟩, [Call.sugarToken])) := by
  constructor
  · induction times with
    | nil => simp [runTokenCalls]
    | cons x xs ih =>
        have hx : x < st.sugarTokenExpiresAt - 60 := hw x (by simp)
        have hrest := ih (fun y hy => hw y (by simp [hy]))
        simp only [runTokenCalls, getSugarAuthToken_hit x fetch st t hc ht hx,
          hrest, List.map_cons]
  · intro x r hx hf
    subst hf
    apply getSugarAuthToken_miss_ok
    intro hcon
    exact absurd hcon.2 (not_lt.mpr hx)

/-- Witness for C7: three calls inside the window return the cached value
three times with no requests, and an expired call refreshes the cache. -/
theorem c7_token_idempotent_witness :
    runTokenCalls (Except.ok ⟨"new", 3600⟩) ⟨some "tok", 1000⟩ [1, 2, 3] =
      ([(Except.ok "tok", []), (Except.ok "tok", []), (Except.ok "tok", [])],
       ⟨some "tok", 1000⟩) ∧
    getSugarAuthToken 940 (Except.ok ⟨"new", 3600⟩) ⟨some "tok", 1000⟩ =
      (Except.ok "new", ⟨some "new", 940 + 3600⟩, [Call.sugarToken]) := by
  have h := c7_token_idempotent (Except.ok ⟨"new", 3600⟩) ⟨some "tok", 1000⟩
    "tok" rfl (by decide) [1, 2, 3] (by intro x hx; fin_cases hx <;> norm_num)
  exact ⟨h.1, h.2 940 ⟨"new", 3600⟩ (by norm_num) rfl⟩

/-- Claim C8: when the outbound token request fails, the cache slot is
left unchanged and the error is propagated; the cache is written only on
a successful fetch. -/
theorem c8_cache_atomic_on_error (now : Rat) (st : TokenCache) (e : String)
    (hmiss : ¬ (optStrTruthy st.cachedSugarToken = true ∧
        now < st.sugarTokenExpiresAt - 60)) :
    getSugarAuthToken now (Except.error e) st =
      (Except.error e, st, [Call.sugarToken]) ∧
    (∀ fetch, (getSugarAuthToken now fetch st).2.1 ≠ st →
      ∃ r, fetch = Except.ok r ∧
        (getSugarAuthToken now fetch st).2.1 =
          ⟨some r.access_token, now + r.expires_in⟩) := by
  constructor
  · exact getSugarAuthToken_miss_error now e st hmiss
  · intro fetch hne
    cases fetch with
    | error e2 =>
        rw [getSugarAuthToken_miss_error now e2 st hmiss] at hne
        exact absurd rfl hne
    | ok r =>
        refine ⟨r, rfl, ?_⟩
        rw [getSugarAuthToken_miss_ok now r st hmiss]

/-- Witness for C8: a failing fetch from the empty initial cache leaves
the cache empty and propagates the error. -/
theorem c8_cache_atomic_on_error_witness :
    getSugarAuthToken 5 (Except.error "ECONNREFUSED") ⟨none, 0⟩ =
      (Except.error "ECONNREFUSED", ⟨none, 0⟩, [Call.sugarToken]) :=
  (c8_cache_atomic_on_error 5 ⟨none, 0⟩ "ECONNREFUSED"
    (by simp [optStrTruthy])).1

/-- A successful contact read records the contact `GET` among its calls. -/
theorem getSugarContact_ok_mem (env : Env) (now : Rat) (st : TokenCache)
    (id : String) (c : Contact) (st1 : TokenCache) (cs : List Call)
    (hg : getSugarContact env now st id = (Except.ok c, st1, cs)) :
    Call.contactGet id ∈ cs := by
  unfold getSugarContact at hg
  rcases hA : getSugarAuthToken now env.sugarTokenFetch st with ⟨r, stx, csx⟩
  rw [hA] at hg
  cases r with
  | error e => simp at hg
  | ok tok =>
      cases hB : env.getContact id <;> rw [hB] at hg <;> simp at hg
      obtain ⟨-, -, h3⟩ := hg
      subst h3
      simp

/-! ### Claims about the `/usps/validate` route handler -/

/-- Claim C2: a request whose `record_id` query parameter is absent or
empty is answered with status 400 and body `Missing record_id`, and no
outbound call is made. -/
theorem c2_missing_record_id (env : Env) (n1 n2 : Rat) (st : TokenCache)
    (record_id : Option String)
    (h : record_id = none ∨ record_id = some "") :
    handleValidate env n1 n2 st record_id =
      (⟨400, "Missing record_id"⟩, st, []) := by
  have hf : optStrTruthy record_id = false := by
    rcases h with h | h <;> subst h <;> rfl
  unfold handleValidate
  rw [if_pos hf]

/-- Witness for C2 with the parameter absent. -/
theorem c2_missing_record_id_witness :
    handleValidate
      ⟨Except.error "t", fun _ => Except.error "c", Except.error "u",
       fun _ => Except.error "s", fun _ _ => Except.error "p"⟩
      0 0 ⟨none, 0⟩ none =
      (⟨400, "Missing record_id"⟩, ⟨none, 0⟩, []) :=
  c2_missing_record_id _ 0 0 ⟨none, 0⟩ none (Or.inl rfl)

/-- Claim C3: when the fetched contact yields an empty street, city,
state or postal code after extraction, the response is 400 with body
`Missing one or more required address fields`; the contact read was made
and no postal call (token or standardization) is made. -/
theorem c3_missing_address_fields (env : Env) (n1 n2 : Rat) (st : TokenCache)
    (record_id : Option String) (c : Contact) (st1 : TokenCache)
    (cs : List Call) (hrid : optStrTruthy record_id = true)
    (hg : getSugarContact env n1 st (record_id.getD "") =
      (Except.ok c, st1, cs))
    (hempty : ((extractParams c).streetAddress.isEmpty ||
        (extractParams c).city.isEmpty || (extractParams c).state.isEmpty ||
        (extractParams c).ZIPCode.isEmpty) = true) :
    handleValidate env n1 n2 st record_id =
      (⟨400, "Missing one or more required address fields"⟩, st1, cs) ∧
    Call.contactGet (record_id.getD "") ∈ cs ∧
    Call.uspsToken ∉ cs ∧ (∀ p, Call.standardizeCall p ∉ cs) := by
  have hshape := getSugarContact_calls env n1 st (record_id.getD "")
  rw [hg] at hshape
  refine ⟨?_, getSugarContact_ok_mem env n1 st _ c st1 cs hg, ?_, ?_⟩
  · unfold handleValidate
    rw [if_neg (by simp [hrid])]
    simp [hg, hempty]
  · intro hmem
    rcases hshape _ hmem with h | h <;> exact Call.noConfusion h
  · intro p hmem
    rcases hshape _ hmem with h | h <;> exact Call.noConfusion h

/-- Witness for C3: scenario B of the spec, a contact whose state field is
absent. -/
theorem c3_missing_address_fields_witness :
    handleValidate noStateEnv 0 0 ⟨none, 0⟩ (some "456") =
      (⟨400, "Missing one or more required address fields"⟩,
       ⟨some "tok", 0 + 3600⟩, [Call.sugarToken, Call.contactGet "456"]) ∧
    Call.contactGet "456" ∈ [Call.sugarToken, Call.contactGet "456"] ∧
    Call.uspsToken ∉ [Call.sugarToken, Call.contactGet "456"] ∧
    (∀ p, Call.standardizeCall p ∉ [Call.sugarToken, Call.contactGet "456"]) :=
  c3_missing_address_fields noStateEnv 0 0 ⟨none, 0⟩ (some "456")
    sampleNoState ⟨some "tok", 0 + 3600⟩
    [Call.sugarToken, Call.contactGet "456"] rfl rfl rfl

/-- A successful contact read returns exactly what the CRM returned. -/
theorem getSugarContact_ok_inv (env : Env) (now : Rat) (st : TokenCache)
    (id : String) (c : Contact) (st1 : TokenCache) (cs : List Call)
    (hg : getSugarContact env now st id = (Except.ok c, st1, cs)) :
    env.getContact id = Except.ok c := by
  unfold getSugarContact at hg
  rcases hA : getSugarAuthToken now env.sugarTokenFetch st with ⟨r, stx, csx⟩
  rw [hA] at hg
  cases r with
  | error e => simp at hg
  | ok tok =>
      cases hB : env.getContact id <;> rw [hB] at hg <;> simp at hg
      rw [hg.1]

/-- A successful contact update records the contact `PUT` among its
calls. -/
theorem updateSugarContact_ok_mem (env : Env) (now : Rat) (st : TokenCache)
    (id : String) (data : List (String × String)) (st2 : TokenCache)
    (cs2 : List Call)
    (hu : updateSugarContact env now st id data = (Except.ok (), st2, cs2)) :
    Call.contactUpdate id data ∈ cs2 := by
  unfold updateSugarContact at hu
  rcases hA : getSugarAuthToken now env.sugarTokenFetch st with ⟨r, stx, csx⟩
  rw [hA] at hu
  cases r with
  | error e => simp at hu
  | ok tok =>
      cases hB : env.updateContact id data <;> rw [hB] at hu <;> simp at hu
      obtain ⟨-, h3⟩ := hu
      subst h3
      simp

/-- Claim C4: whenever a step after the `record_id` check fails, the
response is 500 with body `<h3>Address validation failed</h3><pre>` +
the causing error message + `</pre>`; when the contact fetch itself
fails, no postal call and no update call is made. -/
theorem c4_failure_paths :
    (∀ env : Env, ∀ n1 n2 : Rat, ∀ st : TokenCache, ∀ record_id : Option String,
      ∀ e : String, ∀ st1 : TokenCache, ∀ cs : List Call,
      optStrTruthy record_id = true →
      getSugarContact env n1 st (record_id.getD "") = (Except.error e, st1, cs) →
      handleValidate env n1 n2 st record_id = (⟨500, failBody e⟩, st1, cs) ∧
        Call.uspsToken ∉ cs ∧ (∀ p, Call.standardizeCall p ∉ cs) ∧
        (∀ i d, Call.contactUpdate i d ∉ cs)) ∧
    (∀ env : Env, ∀ n1 n2 : Rat, ∀ st : TokenCache, ∀ record_id : Option String,
      ∀ c : Contact, ∀ st1 : TokenCache, ∀ cs : List Call, ∀ e : String,
      optStrTruthy record_id = true →
      getSugarContact env n1 st (record_id.getD "") = (Except.ok c, st1, cs) →
      requiredNonEmpty (extractParams c) →
      env.uspsTokenFetch = Except.error e →
      handleValidate env n1 n2 st record_id =
        (⟨500, failBody e⟩, st1, cs ++ [Call.uspsToken])) ∧
    (∀ env : Env, ∀ n1 n2 : Rat, ∀ st : TokenCache, ∀ record_id : Option String,
      ∀ c : Contact, ∀ st1 : TokenCache, ∀ cs : List Call, ∀ utok e : String,
      optStrTruthy record_id = true →
      getSugarContact env n1 st (record_id.getD "") = (Except.ok c, st1, cs) →
      requiredNonEmpty (extractParams c) →
      env.uspsTokenFetch = Except.ok utok →
      env.standardize (extractParams c) = Except.error e →
      handleValidate env n1 n2 st record_id =
        (⟨500, failBody e⟩, st1,
         cs ++ [Call.uspsToken, Call.standardizeCall (extractParams c)])) ∧
    (∀ env : Env, ∀ n1 n2 : Rat, ∀ st : TokenCache, ∀ record_id : Option String,
      ∀ c : Contact, ∀ st1 st2 : TokenCache, ∀ cs cs2 : List Call,
      ∀ utok e : String, ∀ resp : USPSResponse, ∀ corrected : USPSAddress,
      optStrTruthy record_id = true →
      getSugarContact env n1 st (record_id.getD "") = (Except.ok c, st1, cs) →
      requiredNonEmpty (extractParams c) →
      env.uspsTokenFetch = Except.ok utok →
      env.standardize (extractParams c) = Except.ok resp →
      resp.address = some corrected →
      updateSugarContact env n2 st1 (record_id.getD "")
        (updatePayload corrected) = (Except.error e, st2, cs2) →
      handleValidate env n1 n2 st record_id =
        (⟨500, failBody e⟩, st2,
         cs ++ [Call.uspsToken, Call.standardizeCall (extractParams c)]
            ++ cs2)) := by
  refine ⟨?_, ?_, ?_, ?_⟩
  · intro env n1 n2 st record_id e st1 cs hrid hg
    have hshape := getSugarContact_calls env n1 st (record_id.getD "")
    rw [hg] at hshape
    refine ⟨?_, ?_, ?_, ?_⟩
    · unfold handleValidate
      rw [if_neg (by simp [hrid])]
      simp [hg]
    · intro hmem
      rcases hshape _ hmem with h | h <;> exact Call.noConfusion h
    · intro p hmem
      rcases hshape _ hmem with h | h <;> exact Call.noConfusion h
    · intro i d hmem
      rcases hshape _ hmem with h | h <;> exact Call.noConfusion h
  · intro env n1 n2 st record_id c st1 cs e hrid hg hne hu
    unfold handleValidate
    rw [if_neg (by simp [hrid])]
    simp [hg, hu]
    simpa [requiredNonEmpty] using hne
  · intro env n1 n2 st record_id c st1 cs utok e hrid hg hne hu hs
    unfold handleValidate
    rw [if_neg (by simp [hrid])]
    simp [hg, hu, hs]
    simpa [requiredNonEmpty] using hne
  · intro env n1 n2 st record_id c st1 st2 cs cs2 utok e resp corrected
      hrid hg hne hu hs ha hupd
    unfold handleValidate
    rw [if_neg (by simp [hrid])]
    simp [hg, hu, hs, ha, hupd]
    simpa [requiredNonEmpty] using hne

/-- Witness for C4: the four failure scenarios at concrete environments —
contact fetch 404, USPS token failure, standardization failure, CRM
update failure. -/
theorem c4_failure_paths_witness :
    (handleValidate contact404Env 0 0 ⟨none, 0⟩ (some "123") =
      (⟨500, failBody "Request failed with status code 404"⟩,
       ⟨some "tok", 0 + 3600⟩, [Call.sugarToken, Call.contactGet "123"]) ∧
     Call.uspsToken ∉ [Call.sugarToken, Call.contactGet "123"] ∧
     (∀ p, Call.standardizeCall p ∉ [Call.sugarToken, Call.contactGet "123"]) ∧
     (∀ i d, Call.contactUpdate i d ∉
        [Call.sugarToken, Call.contactGet "123"])) ∧
    handleValidate uspsTokenFailEnv 0 0 ⟨none, 0⟩ (some "123") =
      (⟨500, failBody "usps token failure"⟩, ⟨some "tok", 0 + 3600⟩,
       [Call.sugarToken, Call.contactGet "123"] ++ [Call.uspsToken]) ∧
    handleValidate stdFailEnv 0 0 ⟨none, 0⟩ (some "123") =
      (⟨500, failBody "Address Not Found"⟩, ⟨some "tok", 0 + 3600⟩,
       [Call.sugarToken, Call.contactGet "123"] ++
         [Call.uspsToken, Call.standardizeCall (extractParams sampleContact)]) ∧
    handleValidate updateFailEnv 0 0 ⟨none, 0⟩ (some "123") =
      (⟨500, failBody "Request failed with status code 500"⟩,
       ⟨some "tok", 0 + 3600⟩,
       [Call.sugarToken, Call.contactGet "123"] ++
         [Call.uspsToken, Call.standardizeCall (extractParams sampleContact)] ++
         [Call.contactUpdate "123" (updatePayload sampleAddr)]) := by
  have hupd : updateSugarContact updateFailEnv 0 ⟨some "tok", 0 + 3600⟩ "123"
      (updatePayload sampleAddr) =
      (Except.error "Request failed with status code 500",
       ⟨some "tok", 0 + 3600⟩,
       [Call.contactUpdate "123" (updatePayload sampleAddr)]) := by
    unfold updateSugarContact
    rw [getSugarAuthToken_hit 0 updateFailEnv.sugarTokenFetch
      ⟨some "tok", 0 + 3600⟩ "tok" rfl (by decide) (by norm_num)]
    rfl
  exact ⟨c4_failure_paths.1 contact404Env 0 0 ⟨none, 0⟩ (some "123") _ _ _
      rfl rfl,
    c4_failure_paths.2.1 uspsTokenFailEnv 0 0 ⟨none, 0⟩ (some "123")
      sampleContact _ _ _ rfl rfl (by decide) rfl,
    c4_failure_paths.2.2.1 stdFailEnv 0 0 ⟨none, 0⟩ (some "123") sampleContact
      _ _ _ _ rfl rfl (by decide) rfl rfl,
    c4_failure_paths.2.2.2 updateFailEnv 0 0 ⟨none, 0⟩ (some "123")
      sampleContact _ _ _ _ _ _ _ _ rfl rfl (by decide) rfl rfl rfl hupd⟩

/-- Claim C5: on a successful standardization, the update payload maps
the standardized street abbreviation, city, state and ZIP onto the four
CRM primary address fields and sets the status field to the literal
`Validated`; a successful update yields status 200 with the success HTML
body referencing the input `record_id`. -/
theorem c5_success_path (env : Env) (n1 n2 : Rat) (st : TokenCache)
    (record_id : Option String) (c : Contact) (st1 st2 : TokenCache)
    (cs cs2 : List Call) (utok : String) (resp : USPSResponse)
    (corrected : USPSAddress)
    (hrid : optStrTruthy record_id = true)
    (hg : getSugarContact env n1 st (record_id.getD "") =
      (Except.ok c, st1, cs))
    (hne : requiredNonEmpty (extractParams c))
    (hu : env.uspsTokenFetch = Except.ok utok)
    (hs : env.standardize (extractParams c) = Except.ok resp)
    (ha : resp.address = some corrected)
    (hupd : updateSugarContact env n2 st1 (record_id.getD "")
      (updatePayload corrected) = (Except.ok (), st2, cs2)) :
    handleValidate env n1 n2 st record_id =
      (⟨200, successBody (record_id.getD "")⟩, st2,
       cs ++ [Call.uspsToken, Call.standardizeCall (extractParams c)]
          ++ cs2) ∧
    Call.contactUpdate (record_id.getD "") (updatePayload corrected) ∈ cs2 ∧
    updatePayload corrected =
      [("primary_address_street", corrected.streetAddressAbbreviation),
       ("primary_address_city", corrected.city),
       ("primary_address_state", corrected.state),
       ("primary_address_postalcode", corrected.ZIPCode),
       ("address_validation_status_c", "Validated")] := by
  refine ⟨?_, updateSugarContact_ok_mem env n2 st1 _ _ st2 cs2 hupd, rfl⟩
  unfold handleValidate
  rw [if_neg (by simp [hrid])]
  simp [hg, hu, hs, ha, hupd]
  simpa [requiredNonEmpty] using hne

/-- Witness for C5: scenario A of the spec — record `123`, complete
address, successful standardization and update. -/
theorem c5_success_path_witness :
    handleValidate okEnv 0 0 ⟨none, 0⟩ (some "123") =
      (⟨200, successBody "123"⟩, ⟨some "tok", 0 + 3600⟩,
       [Call.sugarToken, Call.contactGet "123"] ++
         [Call.uspsToken, Call.standardizeCall (extractParams sampleContact)]
         ++ [Call.contactUpdate "123" (updatePayload sampleAddr)]) ∧
    Call.contactUpdate "123" (updatePayload sampleAddr) ∈
      [Call.contactUpdate "123" (updatePayload sampleAddr)] ∧
    updatePayload sampleAddr =
      [("primary_address_street", sampleAddr.streetAddressAbbreviation),
       ("primary_address_city", sampleAddr.city),
       ("primary_address_state", sampleAddr.state),
       ("primary_address_postalcode", sampleAddr.ZIPCode),
       ("address_validation_status_c", "Validated")] := by
  have hupd : updateSugarContact okEnv 0 ⟨some "tok", 0 + 3600⟩ "123"
      (updatePayload sampleAddr) =
      (Except.ok (), ⟨some "tok", 0 + 3600⟩,
       [Call.contactUpdate "123" (updatePayload sampleAddr)]) := by
    unfold updateSugarContact
    rw [getSugarAuthToken_hit 0 okEnv.sugarTokenFetch
      ⟨some "tok", 0 + 3600⟩ "tok" rfl (by decide) (by norm_num)]
    rfl
  exact c5_success_path okEnv 0 0 ⟨none, 0⟩ (some "123") sampleContact
    _ _ _ _ _ _ _ rfl rfl (by decide) rfl rfl rfl hupd

/-- Every outbound request of the route handler is one of: the CRM token
request, the contact read for the id of the request, the USPS token request,
the standardization call with the parameters extracted from the contact
the CRM returned, or the contact update carrying an `updatePayload`. -/
theorem handleValidate_calls_shape (env : Env) (n1 n2 : Rat) (st : TokenCache)
    (record_id : Option String) :
    ∀ x ∈ (handleValidate env n1 n2 st record_id).2.2,
      x = Call.sugarToken ∨ x = Call.contactGet (record_id.getD "") ∨
      x = Call.uspsToken ∨
      (∃ c, env.getContact (record_id.getD "") = Except.ok c ∧
        x = Call.standardizeCall (extractParams c)) ∨
      (∃ a, x = Call.contactUpdate (record_id.getD "") (updatePayload a)) := by
  intro x hx
  unfold handleValidate at hx
  by_cases hrid : optStrTruthy record_id = false
  · rw [if_pos hrid] at hx
    simp at hx
  · rw [if_neg hrid] at hx
    rcases hg : getSugarContact env n1 st (record_id.getD "") with ⟨r, st1, cs⟩
    have hcs : ∀ y ∈ cs,
        y = Call.sugarToken ∨ y = Call.contactGet (record_id.getD "") := by
      have h := getSugarContact_calls env n1 st (record_id.getD "")
      rw [hg] at h
      exact h
    cases r with
    | error e =>
        simp only [hg] at hx
        rcases hcs x hx with h | h
        · exact Or.inl h
        · exact Or.inr (Or.inl h)
    | ok c =>
      have hokc : env.getContact (record_id.getD "") = Except.ok c :=
        getSugarContact_ok_inv env n1 st _ c st1 cs hg
      by_cases hne : ((extractParams c).streetAddress.isEmpty ||
          (extractParams c).city.isEmpty || (extractParams c).state.isEmpty ||
          (extractParams c).ZIPCode.isEmpty) = true
      · simp only [hg, if_pos hne] at hx
        rcases hcs x hx with h | h
        · exact Or.inl h
        · exact Or.inr (Or.inl h)
      · cases hu : env.uspsTokenFetch with
        | error e =>
            simp only [hg, if_neg hne, hu, List.mem_append, List.mem_cons,
              List.not_mem_nil, or_false] at hx
            rcases hx with h | h
            · rcases hcs x h with h2 | h2
              · exact Or.inl h2
              · exact Or.inr (Or.inl h2)
            · exact Or.inr (Or.inr (Or.inl h))
        | ok utok =>
          cases hs : env.standardize (extractParams c) with
          | error e =>
              simp only [hg, if_neg hne, hu, hs, List.mem_append,
                List.mem_cons, List.not_mem_nil, or_false] at hx
              rcases hx with h | h | h
              · rcases hcs x h with h2 | h2
                · exact Or.inl h2
                · exact Or.inr (Or.inl h2)
              · exact Or.inr (Or.inr (Or.inl h))
              · exact Or.inr (Or.inr (Or.inr (Or.inl ⟨c, hokc, h⟩)))
          | ok resp =>
            cases ha : resp.address with
            | none =>
                simp only [hg, if_neg hne, hu, hs, ha, List.mem_append,
                  List.mem_cons, List.not_mem_nil, or_false] at hx
                rcases hx with h | h | h
                · rcases hcs x h with h2 | h2
                  · exact Or.inl h2
                  · exact Or.inr (Or.inl h2)
                · exact Or.inr (Or.inr (Or.inl h))
                · exact Or.inr (Or.inr (Or.inr (Or.inl ⟨c, hokc, h⟩)))
            | some corrected =>
              rcases hupd : updateSugarContact env n2 st1 (record_id.getD "")
                  (updatePayload corrected) with ⟨ru, st2, cs2⟩
              have hcs2 : ∀ y ∈ cs2, y = Call.sugarToken ∨
                  y = Call.contactUpdate (record_id.getD "")
                    (updatePayload corrected) := by
                have h := updateSugarContact_calls env n2 st1
                  (record_id.getD "") (updatePayload corrected)
                rw [hupd] at h
                exact h
              cases ru <;>
                simp only [hg, if_neg hne, hu, hs, ha, hupd, List.mem_append,
                  List.mem_cons, List.not_mem_nil, or_false] at hx <;>
                · rcases hx with (h | h | h) | h
                  · rcases hcs x h with h2 | h2
                    · exact Or.inl h2
                    · exact Or.inr (Or.inl h2)
                  · exact Or.inr (Or.inr (Or.inl h))
                  · exact Or.inr (Or.inr (Or.inr (Or.inl ⟨c, hokc, h⟩)))
                  · rcases hcs2 x h with h2 | h2
                    · exact Or.inl h2
                    · exact Or.inr (Or.inr (Or.inr (Or.inr ⟨corrected, h2⟩)))

/-- Claim C6: the five address parameters sent toward the postal API are
extracted with the empty string substituted for any absent contact field,
and every standardization request the handler issues carries exactly the
parameters extracted from the contact the CRM returned. -/
theorem c6_extract_boundary :
    (∀ c : Contact,
      (c.primary_address_street = none →
        (extractParams c).streetAddress = "") ∧
      (∀ s, c.primary_address_street = some s →
        (extractParams c).streetAddress = s) ∧
      (c.mailing_address_2_c = none →
        (extractParams c).secondaryAddress = "") ∧
      (∀ s, c.mailing_address_2_c = some s →
        (extractParams c).secondaryAddress = s) ∧
      (c.primary_address_city = none → (extractParams c).city = "") ∧
      (∀ s, c.primary_address_city = some s → (extractParams c).city = s) ∧
      (c.primary_address_state = none → (extractParams c).state = "") ∧
      (∀ s, c.primary_address_state = some s →
        (extractParams c).state = s) ∧
      (c.primary_address_postalcode = none →
        (extractParams c).ZIPCode = "") ∧
      (∀ s, c.primary_address_postalcode = some s →
        (extractParams c).ZIPCode = s)) ∧
    (∀ env : Env, ∀ n1 n2 : Rat, ∀ st : TokenCache,
      ∀ record_id : Option String, ∀ c : Contact, ∀ p : StdParams,
      env.getContact (record_id.getD "") = Except.ok c →
      Call.standardizeCall p ∈ (handleValidate env n1 n2 st record_id).2.2 →
      p = extractParams c) := by
  constructor
  · intro c
    refine ⟨?_, ?_, ?_, ?_, ?_, ?_, ?_, ?_, ?_, ?_⟩ <;>
      first
        | (intro h; simp [extractParams, h])
        | (intro s h; simp [extractParams, h])
  · intro env n1 n2 st record_id c p hokc hmem
    rcases handleValidate_calls_shape env n1 n2 st record_id _ hmem with
      h | h | h | ⟨c2, hok2, h⟩ | ⟨a, h⟩
    · exact Call.noConfusion h
    · exact Call.noConfusion h
    · exact Call.noConfusion h
    · rw [hokc] at hok2
      injection hok2 with h2
      injection h with h3
      rw [h3, h2]
    · exact Call.noConfusion h

/-- Witness for C6: the absent state of `sampleNoState` becomes `""`, a
present street is passed through, and the standardization call of a
concrete full run carries the extracted parameters. -/
theorem c6_extract_boundary_witness :
    (extractParams sampleNoState).state = "" ∧
    (extractParams sampleNoState).streetAddress = "6406 Ivy Lane" ∧
    extractParams sampleContact = extractParams sampleContact :=
  ⟨(c6_extract_boundary.1 sampleNoState).2.2.2.2.2.2.1 rfl,
   (c6_extract_boundary.1 sampleNoState).2.1 "6406 Ivy Lane" rfl,
   c6_extract_boundary.2 emptyTokEnv 0 0 ⟨none, 0⟩ (some "123") sampleContact
     (extractParams sampleContact) rfl (by decide)⟩

/-- Claim C9: every update the handler sends to the CRM carries exactly
the four primary address fields and the validation-status field; in
particular `mailing_address_2_c` is never written back. -/
theorem c9_update_frame (env : Env) (n1 n2 : Rat) (st : TokenCache)
    (record_id : Option String) (i : String) (d : List (String × String))
    (hmem : Call.contactUpdate i d ∈
      (handleValidate env n1 n2 st record_id).2.2) :
    d.map Prod.fst =
      ["primary_address_street", "primary_address_city",
       "primary_address_state", "primary_address_postalcode",
       "address_validation_status_c"] ∧
    d.length = 5 ∧
    "mailing_address_2_c" ∉ d.map Prod.fst := by
  rcases handleValidate_calls_shape env n1 n2 st record_id _ hmem with
    h | h | h | ⟨c2, _, h⟩ | ⟨a, h⟩
  · exact Call.noConfusion h
  · exact Call.noConfusion h
  · exact Call.noConfusion h
  · exact Call.noConfusion h
  · injection h with h1 h2
    subst h2
    have hkeys : (updatePayload a).map Prod.fst =
        ["primary_address_street", "primary_address_city",
         "primary_address_state", "primary_address_postalcode",
         "address_validation_status_c"] := by
      simp [updatePayload]
    exact ⟨hkeys, by simp [updatePayload], by rw [hkeys]; decide⟩

/-- Witness for C9: the update issued in a concrete full run has exactly
the five fields. -/
theorem c9_update_frame_witness :
    (updatePayload sampleAddr).map Prod.fst =
      ["primary_address_street", "primary_address_city",
       "primary_address_state", "primary_address_postalcode",
       "address_validation_status_c"] ∧
    (updatePayload sampleAddr).length = 5 ∧
    "mailing_address_2_c" ∉ (updatePayload sampleAddr).map Prod.fst :=
  c9_update_frame emptyTokEnv 0 0 ⟨none, 0⟩ (some "123") "123"
    (updatePayload sampleAddr) (by decide)

/-- Claim C10: when the standardization call succeeds but its body lacks
the `address` object, the handler responds 500 (the property access on
the absent object raises the error caught by the unified error path) and
the CRM update call is never made. -/
theorem c10_no_address_object (env : Env) (n1 n2 : Rat) (st : TokenCache)
    (record_id : Option String) (c : Contact) (st1 : TokenCache)
    (cs : List Call) (utok : String) (resp : USPSResponse)
    (hrid : optStrTruthy record_id = true)
    (hg : getSugarContact env n1 st (record_id.getD "") =
      (Except.ok c, st1, cs))
    (hne : requiredNonEmpty (extractParams c))
    (hu : env.uspsTokenFetch = Except.ok utok)
    (hs : env.standardize (extractParams c) = Except.ok resp)
    (ha : resp.address = none) :
    handleValidate env n1 n2 st record_id =
      (⟨500, failBody undefinedAccessMsg⟩, st1,
       cs ++ [Call.uspsToken, Call.standardizeCall (extractParams c)]) ∧
    (∀ i d, Call.contactUpdate i d ∉
      (handleValidate env n1 n2 st record_id).2.2) := by
  have hcs : ∀ y ∈ cs,
      y = Call.sugarToken ∨ y = Call.contactGet (record_id.getD "") := by
    have h := getSugarContact_calls env n1 st (record_id.getD "")
    rw [hg] at h
    exact h
  have heq : handleValidate env n1 n2 st record_id =
      (⟨500, failBody undefinedAccessMsg⟩, st1,
       cs ++ [Call.uspsToken, Call.standardizeCall (extractParams c)]) := by
    unfold handleValidate
    rw [if_neg (by simp [hrid])]
    simp [hg, hu, hs, ha]
    simpa [requiredNonEmpty] using hne
  refine ⟨heq, ?_⟩
  intro i d hmem
  rw [heq] at hmem
  simp only [List.mem_append, List.mem_cons, List.not_mem_nil,
    or_false] at hmem
  rcases hmem with h | h | h
  · rcases hcs _ h with h2 | h2 <;> exact Call.noConfusion h2
  · exact Call.noConfusion h
  · exact Call.noConfusion h

/-- Witness for C10: a concrete run in which the USPS response carries no
`address` object ends in 500 with no update call. -/
theorem c10_no_address_object_witness :
    handleValidate noAddrEnv 0 0 ⟨none, 0⟩ (some "123") =
      (⟨500, failBody undefinedAccessMsg⟩, ⟨some "tok", 0 + 3600⟩,
       [Call.sugarToken, Call.contactGet "123"] ++
         [Call.uspsToken,
          Call.standardizeCall (extractParams sampleContact)]) ∧
    (∀ i d, Call.contactUpdate i d ∉
      (handleValidate noAddrEnv 0 0 ⟨none, 0⟩ (some "123")).2.2) :=
  c10_no_address_object noAddrEnv 0 0 ⟨none, 0⟩ (some "123") sampleContact
    _ _ _ _ rfl rfl (by decide) rfl rfl rfl

end AV
